import Mathlib

/-!
Shallow embedding of pxr/usdImaging/usdImaging/adapterRegistry.cpp
(the UsdImagingAdapterRegistry constructor, its three mapping passes,
and the lookup/construction entry points), with the external
collaborators (Plug registry, schema registry, metadata bags) supplied
as explicit environment parameters.
-/

set_option autoImplicit false

namespace UsdImaging

/-- A TfType handle: either the invalid (default-constructed) type or a
named registered type. `TfType()` in the C++ source is `TfType.invalid`. -/
inductive TfType where
  | invalid : TfType
  | mk : String → TfType
deriving DecidableEq, Repr

/-- `TfType::GetTypeName`; the invalid type has the empty name. -/
def TfType.getTypeName : TfType → String
  | .invalid => ""
  | .mk n => n

/-- A JSON metadata value as used by the registry: it only ever asks
`Is<bool>`, `Get<bool>`, `Is<std::string>`, `Get<std::string>`; every other
shape behaves like `jsOther`. -/
inductive JsValue where
  | jsBool : Bool → JsValue
  | jsString : String → JsValue
  | jsOther : JsValue
deriving DecidableEq, Repr

/-- A JsObject metadata bag (`plugin->GetMetadataForType`), keyed by string. -/
abbrev JsObject := List (String × JsValue)

/-- `JsObject::find`: first binding of the key, if any. -/
def jsFind : JsObject → String → Option JsValue
  | [], _ => none
  | (k, v) :: rest, key => if k = key then some v else jsFind rest key

/-- The `_TypeMap` (TfDenseHashMap from TfToken to TfType), modelled as an
association list with unique keys maintained by the operations below. -/
abbrev _TypeMap := List (String × TfType)

/-- Map lookup (`find` / `count` on the `_TypeMap`). -/
def tmFind? : _TypeMap → String → Option TfType
  | [], _ => none
  | (k, v) :: rest, key => if k = key then some v else tmFind? rest key

/-- `operator[] = v`: overwrite the binding if the key is present,
append a new binding otherwise. -/
def tmSet : _TypeMap → String → TfType → _TypeMap
  | [], key, v => [(key, v)]
  | (k, v') :: rest, key, v =>
    if k = key then (k, v) :: rest else (k, v') :: tmSet rest key v

/-- `emplace(key, v)`: insert only if absent; the boolean is
`emplace(...).second` (whether the insert happened). -/
def tmEmplace (tm : _TypeMap) (key : String) (v : TfType) : _TypeMap × Bool :=
  match tmFind? tm key with
  | some _ => (tm, false)
  | none => (tm ++ [(key, v)], true)

/-- Non-const `operator[]` used as an rvalue: returns the existing value,
or default-inserts `TfType()` (the invalid type) and returns it. -/
def tmGetOrInsertDefault (tm : _TypeMap) (key : String) : _TypeMap × TfType :=
  match tmFind? tm key with
  | some v => (tm, v)
  | none => (tm ++ [(key, TfType.invalid)], TfType.invalid)

/-- The diagnostics the registry constructor and adapter factory report
(TF_RUNTIME_ERROR / TF_CODING_ERROR call sites), in source order, with the
arguments that the corresponding message interpolates. Debug-channel
messages (TF_DEBUG) are not modelled. -/
inductive Event where
  | isInternalCorrupted : TfType → Event
  | nameMissing : TfType → Event
  | nameCorrupted : TfType → Event
  | adapterConflict : String → TfType → TfType → Event
  | includeDerivedCorrupted : TfType → Event
  | includeFamilyCorrupted : TfType → Event
  | pluginLoadFailed : TfType → Event
  | cannotManufacture : TfType → String → Event
  | failedToInstantiate : TfType → String → Event
deriving DecidableEq, Repr

/-- One discovered candidate type: the TfType from `GetAllDerivedTypes`
together with `GetPluginForType`'s answer (`none` when no plugin binds the
type; `some md` carries `GetMetadataForType`'s bag). -/
structure Candidate where
  tfType : TfType
  plugin : Option JsObject
deriving DecidableEq, Repr

/-- One entry of `UsdSchemaRegistry::FindSchemaInfosInFamily`: the schema
identifier and the schema's TfType. -/
structure SchemaInfo where
  identifier : String
  type : TfType
deriving DecidableEq, Repr

/-- The external collaborators consulted during registry construction:
the Plug registry enumerations (as candidate lists, in enumeration order)
and the Usd schema registry queries. -/
structure DiscoveryEnv where
  primCandidates : List Candidate
  apiSchemaCandidates : List Candidate
  externalPluginsEnabled : Bool
  findSchemaInfosInFamily : String → List SchemaInfo
  getSchemaTypeName : TfType → String
  getTypeFromSchemaTypeName : String → TfType
  getDirectlyDerivedTypes : TfType → List TfType

/-- The `isEnabled` computation of the constructor loops: `some b` is the
computed flag, `none` means the `continue` taken when `isInternal` holds a
non-boolean (after reporting). -/
def isEnabledResult (ext : Bool) (metadata : JsObject) : Option Bool :=
  if ext then some true
  else
    match jsFind metadata "isInternal" with
    | none => some false
    | some (JsValue.jsBool b) => some b
    | some _ => none

/-- Mutable state threaded through the first (prim-adapter) discovery
loop of the constructor. -/
structure PrimPass1State where
  typeMap : _TypeMap
  includeDerivedPrimTypes : List String
  includeSchemaFamilies : List (String × Bool)
  events : List Event
deriving DecidableEq, Repr

/-- Tail of a prim-adapter loop iteration: the `includeSchemaFamily`
metadata handling (runs after the `includeDerivedPrimTypes` handling). -/
def primPass1Family (metadata : JsObject) (c : Candidate) (typeMap : _TypeMap)
    (includeDerivedPrimTypes : List String) (includeDerived : Bool)
    (events : List Event) (includeSchemaFamilies : List (String × Bool))
    (primTypeName : String) : PrimPass1State :=
  match jsFind metadata "includeSchemaFamily" with
  | none =>
    { typeMap := typeMap
      includeDerivedPrimTypes := includeDerivedPrimTypes
      includeSchemaFamilies := includeSchemaFamilies
      events := events }
  | some (JsValue.jsBool fb) =>
    { typeMap := typeMap
      includeDerivedPrimTypes := includeDerivedPrimTypes
      includeSchemaFamilies :=
        if fb then includeSchemaFamilies ++ [(primTypeName, includeDerived)]
        else includeSchemaFamilies
      events := events }
  | some _ =>
    { typeMap := typeMap
      includeDerivedPrimTypes := includeDerivedPrimTypes
      includeSchemaFamilies := includeSchemaFamilies
      events := events ++ [Event.includeFamilyCorrupted c.tfType] }

/-- One iteration of the first (prim-adapter) discovery loop of
`UsdImagingAdapterRegistry::UsdImagingAdapterRegistry`. -/
def primPass1Step (ext : Bool) (st : PrimPass1State) (c : Candidate) :
    PrimPass1State :=
  match c.plugin with
  | none => st
  | some metadata =>
    match isEnabledResult ext metadata with
    | none => { st with events := st.events ++ [Event.isInternalCorrupted c.tfType] }
    | some isEnabled =>
      if isEnabled = false then st
      else
        match jsFind metadata "primTypeName" with
        | none => { st with events := st.events ++ [Event.nameMissing c.tfType] }
        | some (JsValue.jsString primTypeName) =>
          let conflictEvents : List Event :=
            match tmFind? st.typeMap primTypeName with
            | some old => [Event.adapterConflict primTypeName c.tfType old]
            | none => []
          let typeMap := tmSet st.typeMap primTypeName c.tfType
          let events := st.events ++ conflictEvents
          match jsFind metadata "includeDerivedPrimTypes" with
          | none =>
            primPass1Family metadata c typeMap st.includeDerivedPrimTypes false
              events st.includeSchemaFamilies primTypeName
          | some (JsValue.jsBool db) =>
            if db then
              primPass1Family metadata c typeMap
                (st.includeDerivedPrimTypes ++ [primTypeName]) true
                events st.includeSchemaFamilies primTypeName
            else
              primPass1Family metadata c typeMap st.includeDerivedPrimTypes false
                events st.includeSchemaFamilies primTypeName
          | some _ =>
            { typeMap := typeMap
              includeDerivedPrimTypes := st.includeDerivedPrimTypes
              includeSchemaFamilies := st.includeSchemaFamilies
              events := events ++ [Event.includeDerivedCorrupted c.tfType] }
        | some _ => { st with events := st.events ++ [Event.nameCorrupted c.tfType] }

/-- The whole first discovery loop (`TF_FOR_ALL(typeIt, types)` over the
prim-adapter candidates). -/
def primPass1 (ext : Bool) (cs : List Candidate) (st : PrimPass1State) :
    PrimPass1State :=
  cs.foldl (primPass1Step ext) st

/-- State threaded through the schema-family loop (the loop over
`includeSchemaFamilies`) and handed on to derived-type processing. -/
structure Pass2State where
  typeMap : _TypeMap
  includeDerivedPrimTypes : List String
deriving DecidableEq, Repr

/-- Body of the inner loop over `FindSchemaInfosInFamily(familyName)`:
`emplace` the variant's identifier; when the insert happened and
`includeDerived` is set, enqueue the variant's canonical schema type name. -/
def familyVariantStep (env : DiscoveryEnv) (includeDerived : Bool)
    (adapterType : TfType) (st : Pass2State) (schemaInfo : SchemaInfo) :
    Pass2State :=
  let p := tmEmplace st.typeMap schemaInfo.identifier adapterType
  if p.2 then
    let typeName := env.getSchemaTypeName schemaInfo.type
    { typeMap := p.1
      includeDerivedPrimTypes :=
        if includeDerived then st.includeDerivedPrimTypes ++ [typeName]
        else st.includeDerivedPrimTypes }
  else { st with typeMap := p.1 }

/-- One iteration of the loop over `includeSchemaFamilies`: read the
family's adapter with the defaulting `operator[]`, then fold the inner
variant loop. -/
def familyStep (env : DiscoveryEnv) (st : Pass2State) (pair : String × Bool) :
    Pass2State :=
  let q := tmGetOrInsertDefault st.typeMap pair.1
  (env.findSchemaInfosInFamily pair.1).foldl
    (familyVariantStep env pair.2 q.2)
    { st with typeMap := q.1 }

/-- The whole schema-family propagation loop
(`for (auto const &pair : includeSchemaFamilies)`). -/
def familyPass (env : DiscoveryEnv) (pairs : List (String × Bool))
    (st : Pass2State) : Pass2State :=
  pairs.foldl (familyStep env) st

/-- The `while (!derivedTypesStack.empty())` traversal of
`_ProcessDerivedTypes`, with the stack's head as `back()` and an explicit
fuel bound (the C++ loop is bounded by the finite type registry). -/
def derivedLoop (env : DiscoveryEnv) (adapterType : TfType) :
    Nat → List TfType → _TypeMap → _TypeMap
  | 0, _, tm => tm
  | _ + 1, [], tm => tm
  | fuel + 1, derivedType :: rest, tm =>
    let typeName := env.getSchemaTypeName derivedType
    if typeName = "" then derivedLoop env adapterType fuel rest tm
    else
      let p := tmEmplace tm typeName adapterType
      if p.2 then
        derivedLoop env adapterType fuel
          ((env.getDirectlyDerivedTypes derivedType).reverse ++ rest) p.1
      else
        derivedLoop env adapterType fuel rest p.1

/-- One iteration of `_ProcessDerivedTypes`' outer loop over
`includeDerivedPrimTypes`: resolve the root name, skip if unresolvable,
read the root's adapter with the defaulting `operator[]`, then traverse
the directly derived types. -/
def processDerivedRoot (env : DiscoveryEnv) (fuel : Nat) (tm : _TypeMap)
    (primTypeName : String) : _TypeMap :=
  let primType := env.getTypeFromSchemaTypeName primTypeName
  if primType = TfType.invalid then tm
  else
    let q := tmGetOrInsertDefault tm primTypeName
    derivedLoop env q.2 fuel
      ((env.getDirectlyDerivedTypes primType).reverse) q.1

/-- The `_ProcessDerivedTypes` lambda of the constructor, applied to a
type map (it runs once on `_typeMap` and once on `_apiSchemaTypeMap`). -/
def _ProcessDerivedTypes (env : DiscoveryEnv) (fuel : Nat)
    (includeDerivedPrimTypes : List String) (tm : _TypeMap) : _TypeMap :=
  includeDerivedPrimTypes.foldl (processDerivedRoot env fuel) tm

/-- Mutable state threaded through the second (API-schema-adapter)
discovery loop of the constructor. -/
structure ApiPass1State where
  apiSchemaTypeMap : _TypeMap
  keylessApiSchemaAdapterTypes : List TfType
  includeDerivedPrimTypes : List String
  events : List Event
deriving DecidableEq, Repr

/-- One iteration of the second (API-schema-adapter) discovery loop of the
constructor. Unlike the prim loop there is no conflict check before the
map write and no `includeSchemaFamily` handling; an empty name routes the
type into the keyless list instead of the map. -/
def apiPass1Step (ext : Bool) (st : ApiPass1State) (c : Candidate) :
    ApiPass1State :=
  match c.plugin with
  | none => st
  | some metadata =>
    match isEnabledResult ext metadata with
    | none => { st with events := st.events ++ [Event.isInternalCorrupted c.tfType] }
    | some isEnabled =>
      if isEnabled = false then st
      else
        match jsFind metadata "apiSchemaName" with
        | none => { st with events := st.events ++ [Event.nameMissing c.tfType] }
        | some (JsValue.jsString apiSchemaName) =>
          if apiSchemaName = "" then
            { st with keylessApiSchemaAdapterTypes :=
                st.keylessApiSchemaAdapterTypes ++ [c.tfType] }
          else
            let apiSchemaTypeMap := tmSet st.apiSchemaTypeMap apiSchemaName c.tfType
            match jsFind metadata "includeDerivedPrimTypes" with
            | none => { st with apiSchemaTypeMap := apiSchemaTypeMap }
            | some (JsValue.jsBool db) =>
              { st with
                apiSchemaTypeMap := apiSchemaTypeMap
                includeDerivedPrimTypes :=
                  if db then st.includeDerivedPrimTypes ++ [apiSchemaName]
                  else st.includeDerivedPrimTypes }
            | some _ =>
              { st with
                apiSchemaTypeMap := apiSchemaTypeMap
                events := st.events ++ [Event.includeDerivedCorrupted c.tfType] }
        | some _ => { st with events := st.events ++ [Event.nameCorrupted c.tfType] }

/-- The whole second discovery loop over the API-schema candidates. -/
def apiPass1 (ext : Bool) (cs : List Candidate) (st : ApiPass1State) :
    ApiPass1State :=
  cs.foldl (apiPass1Step ext) st

/-- The registry's state after construction: both type maps, both key
snapshots, the keyless adapter list, and the diagnostics reported while
building. -/
structure UsdImagingAdapterRegistry where
  _typeMap : _TypeMap
  _adapterKeys : List String
  _apiSchemaTypeMap : _TypeMap
  _apiSchemaAdapterKeys : List String
  _keylessApiSchemaAdapterTypes : List TfType
  events : List Event
deriving DecidableEq, Repr

/-- `UsdImagingAdapterRegistry::UsdImagingAdapterRegistry`: the full
constructor, from the discovery environment. -/
def UsdImagingAdapterRegistry.construct (env : DiscoveryEnv) (fuel : Nat) :
    UsdImagingAdapterRegistry :=
  let st1 := primPass1 env.externalPluginsEnabled env.primCandidates
    { typeMap := []
      includeDerivedPrimTypes := []
      includeSchemaFamilies := []
      events := [] }
  let st2 := familyPass env st1.includeSchemaFamilies
    { typeMap := st1.typeMap
      includeDerivedPrimTypes := st1.includeDerivedPrimTypes }
  let typeMap := _ProcessDerivedTypes env fuel st2.includeDerivedPrimTypes
    st2.typeMap
  let adapterKeys := typeMap.map Prod.fst
  let stA := apiPass1 env.externalPluginsEnabled env.apiSchemaCandidates
    { apiSchemaTypeMap := []
      keylessApiSchemaAdapterTypes := []
      includeDerivedPrimTypes := []
      events := st1.events }
  let apiSchemaTypeMap := _ProcessDerivedTypes env fuel
    stA.includeDerivedPrimTypes stA.apiSchemaTypeMap
  { _typeMap := typeMap
    _adapterKeys := adapterKeys
    _apiSchemaTypeMap := apiSchemaTypeMap
    _apiSchemaAdapterKeys := apiSchemaTypeMap.map Prod.fst
    _keylessApiSchemaAdapterTypes := stA.keylessApiSchemaAdapterTypes
    events := stA.events }

/-- Modelled from the spec: the one reserved built-in key
(`UsdImagingAdapterKeyTokens->instanceAdapterKey`); the token's literal
value lives in adapterRegistry.h, which is not part of this source set,
so the spec's scenario name is used. -/
def instanceAdapterKey : String := "__builtin_instance__"

/-- `UsdImagingAdapterRegistry::HasAdapter`. -/
def UsdImagingAdapterRegistry.HasAdapter (r : UsdImagingAdapterRegistry)
    (adapterKey : String) : Bool :=
  if adapterKey = instanceAdapterKey then true
  else (tmFind? r._typeMap adapterKey).isSome

/-- `UsdImagingAdapterRegistry::GetAdapterKeys`. -/
def UsdImagingAdapterRegistry.GetAdapterKeys (r : UsdImagingAdapterRegistry) :
    List String :=
  r._adapterKeys

/-- `UsdImagingAdapterRegistry::HasAPISchemaAdapter`. -/
def UsdImagingAdapterRegistry.HasAPISchemaAdapter
    (r : UsdImagingAdapterRegistry) (adapterKey : String) : Bool :=
  (tmFind? r._apiSchemaTypeMap adapterKey).isSome

/-- `UsdImagingAdapterRegistry::GetAPISchemaAdapterKeys`. -/
def UsdImagingAdapterRegistry.GetAPISchemaAdapterKeys
    (r : UsdImagingAdapterRegistry) : List String :=
  r._apiSchemaAdapterKeys

/-- The two adapter families the generic `_ConstructAdapter` template is
instantiated at (prim adapters and API-schema adapters). -/
inductive AdapterFamily where
  | prim : AdapterFamily
  | apiSchema : AdapterFamily
deriving DecidableEq, Repr

/-- A manufactured adapter instance, tagged by the TfType whose factory
produced it. -/
structure AdapterInstance where
  ofType : TfType
deriving DecidableEq, Repr

/-- The construction-time collaborators: whether
`GetPluginForType(t) && plugin->Load()` succeeds, whether
`t.GetFactory<factoryT>()` is non-null for the family's factory base, and
whether `factory->New()` yields an instance. -/
structure ConstructEnv where
  pluginLoadOk : TfType → Bool
  getFactory : AdapterFamily → TfType → Bool
  factoryNew : AdapterFamily → TfType → Bool

/-- The generic `_ConstructAdapter(adapterKey, adapterType)` overload:
load the plugin, fetch the family's factory, invoke it; each failure
reports a coding error and returns the null adapter. -/
def _ConstructAdapterByType (cenv : ConstructEnv) (fam : AdapterFamily)
    (adapterKey : String) (adapterType : TfType) :
    Option AdapterInstance × List Event :=
  if cenv.pluginLoadOk adapterType = false then
    (none, [Event.pluginLoadFailed adapterType])
  else if cenv.getFactory fam adapterType = false then
    (none, [Event.cannotManufacture adapterType adapterKey])
  else if cenv.factoryNew fam adapterType = false then
    (none, [Event.failedToInstantiate adapterType adapterKey])
  else (some { ofType := adapterType }, [])

/-- The generic `_ConstructAdapter(adapterKey, tm)` overload: look the key
up in the map; an unknown key is a silent null result. -/
def _ConstructAdapterByKey (cenv : ConstructEnv) (fam : AdapterFamily)
    (adapterKey : String) (tm : _TypeMap) :
    Option AdapterInstance × List Event :=
  match tmFind? tm adapterKey with
  | none => (none, [])
  | some adapterType => _ConstructAdapterByType cenv fam adapterKey adapterType

/-- Result of `UsdImagingAdapterRegistry::ConstructAdapter`: the null
shared pointer, the hard-coded `new UsdImagingInstanceAdapter`, or a
factory-manufactured plugin adapter. -/
inductive PrimAdapterResult where
  | null : PrimAdapterResult
  | instanceAdapter : PrimAdapterResult
  | pluginAdapter : AdapterInstance → PrimAdapterResult
deriving DecidableEq, Repr

/-- `UsdImagingAdapterRegistry::ConstructAdapter`. -/
def UsdImagingAdapterRegistry.ConstructAdapter (cenv : ConstructEnv)
    (r : UsdImagingAdapterRegistry) (adapterKey : String) :
    PrimAdapterResult × List Event :=
  if adapterKey = instanceAdapterKey then (PrimAdapterResult.instanceAdapter, [])
  else
    match _ConstructAdapterByKey cenv AdapterFamily.prim adapterKey r._typeMap with
    | (none, ev) => (PrimAdapterResult.null, ev)
    | (some i, ev) => (PrimAdapterResult.pluginAdapter i, ev)

/-- `UsdImagingAdapterRegistry::ConstructAPISchemaAdapter`. -/
def UsdImagingAdapterRegistry.ConstructAPISchemaAdapter (cenv : ConstructEnv)
    (r : UsdImagingAdapterRegistry) (adapterKey : String) :
    Option AdapterInstance × List Event :=
  _ConstructAdapterByKey cenv AdapterFamily.apiSchema adapterKey
    r._apiSchemaTypeMap

/-- The loop body of `ConstructKeylessAPISchemaAdapters`: construct each
keyless type with an empty key, keeping only the successes. -/
def constructKeylessLoop (cenv : ConstructEnv) :
    List TfType → List AdapterInstance × List Event
  | [] => ([], [])
  | adapterType :: rest =>
    let p := _ConstructAdapterByType cenv AdapterFamily.apiSchema "" adapterType
    let q := constructKeylessLoop cenv rest
    match p.1 with
    | some i => (i :: q.1, p.2 ++ q.2)
    | none => (q.1, p.2 ++ q.2)

/-- `UsdImagingAdapterRegistry::ConstructKeylessAPISchemaAdapters`. -/
def UsdImagingAdapterRegistry.ConstructKeylessAPISchemaAdapters
    (cenv : ConstructEnv) (r : UsdImagingAdapterRegistry) :
    List AdapterInstance × List Event :=
  constructKeylessLoop cenv r._keylessApiSchemaAdapterTypes

/-! Basic lemmas about the `_TypeMap` operations. -/

theorem tmFind?_tmSet (tm : _TypeMap) (key k : String) (v : TfType) :
    tmFind? (tmSet tm key v) k = if key = k then some v else tmFind? tm k := by
  induction tm with
  | nil => simp [tmSet, tmFind?]
  | cons p rest ih =>
    obtain ⟨k', v'⟩ := p
    simp only [tmSet]
    by_cases h1 : k' = key
    · subst h1
      by_cases h2 : k' = k <;> simp [tmFind?, h2]
    · simp only [if_neg h1, tmFind?]
      by_cases h2 : k' = k
      · subst h2
        have hne : ¬ key = k' := fun h => h1 h.symm
        simp [hne]
      · simp [h2, ih]

theorem tmFind?_append_some {tm : _TypeMap} {k : String} {v : TfType}
    (l : _TypeMap) (h : tmFind? tm k = some v) :
    tmFind? (tm ++ l) k = some v := by
  induction tm with
  | nil => simp [tmFind?] at h
  | cons p rest ih =>
    obtain ⟨k', v'⟩ := p
    simp only [tmFind?] at h ⊢
    by_cases h2 : k' = k
    · simpa [h2] using h
    · simp only [if_neg h2] at h ⊢
      exact ih h

theorem tmFind?_append_none {tm : _TypeMap} {k : String}
    (l : _TypeMap) (h : tmFind? tm k = none) :
    tmFind? (tm ++ l) k = tmFind? l k := by
  induction tm with
  | nil => simp
  | cons p rest ih =>
    obtain ⟨k', v'⟩ := p
    simp only [tmFind?] at h ⊢
    by_cases h2 : k' = k
    · simp [h2] at h
    · simp only [if_neg h2] at h ⊢
      exact ih h

theorem tmEmplace_preserve {tm : _TypeMap} {k : String} {v : TfType}
    (key : String) (v' : TfType) (h : tmFind? tm k = some v) :
    tmFind? (tmEmplace tm key v').1 k = some v := by
  unfold tmEmplace
  cases hf : tmFind? tm key with
  | some w => simpa using h
  | none => simpa using tmFind?_append_some _ h

theorem tmEmplace_find_cases {tm : _TypeMap} {key k : String} {v v' : TfType}
    (h : tmFind? (tmEmplace tm key v).1 k = some v') :
    tmFind? tm k = some v' ∨ (tmFind? tm k = none ∧ k = key ∧ v' = v) := by
  unfold tmEmplace at h
  cases hf : tmFind? tm key with
  | some w => rw [hf] at h; exact Or.inl h
  | none =>
    rw [hf] at h
    simp only at h
    cases hk : tmFind? tm k with
    | some w => rw [tmFind?_append_some _ hk] at h; exact Or.inl h
    | none =>
      rw [tmFind?_append_none _ hk] at h
      simp only [tmFind?] at h
      by_cases h2 : key = k
      · simp only [if_pos h2] at h
        exact Or.inr ⟨rfl, h2.symm, (Option.some.injEq _ _ ▸ h).symm⟩
      · simp [h2] at h

theorem tmGetOrInsertDefault_preserve {tm : _TypeMap} {k : String} {v : TfType}
    (key : String) (h : tmFind? tm k = some v) :
    tmFind? (tmGetOrInsertDefault tm key).1 k = some v := by
  unfold tmGetOrInsertDefault
  cases hf : tmFind? tm key with
  | some w => simpa using h
  | none => simpa using tmFind?_append_some _ h

theorem tmGetOrInsertDefault_find_cases {tm : _TypeMap} {key k : String}
    {v' : TfType}
    (h : tmFind? (tmGetOrInsertDefault tm key).1 k = some v') :
    tmFind? tm k = some v' ∨
      (tmFind? tm k = none ∧ k = key ∧ v' = TfType.invalid) := by
  unfold tmGetOrInsertDefault at h
  cases hf : tmFind? tm key with
  | some w => rw [hf] at h; exact Or.inl h
  | none =>
    rw [hf] at h
    simp only at h
    cases hk : tmFind? tm k with
    | some w => rw [tmFind?_append_some _ hk] at h; exact Or.inl h
    | none =>
      rw [tmFind?_append_none _ hk] at h
      simp only [tmFind?] at h
      by_cases h2 : key = k
      · simp only [if_pos h2] at h
        exact Or.inr ⟨rfl, h2.symm, (Option.some.injEq _ _ ▸ h).symm⟩
      · simp [h2] at h

theorem tmGetOrInsertDefault_value {tm : _TypeMap} {key : String} :
    tmFind? tm key = some (tmGetOrInsertDefault tm key).2 ∨
      (tmGetOrInsertDefault tm key).2 = TfType.invalid := by
  unfold tmGetOrInsertDefault
  cases hf : tmFind? tm key with
  | some w => exact Or.inl rfl
  | none => exact Or.inr rfl

/-- A minimal concrete discovery environment used to instantiate the
general theorems on concrete inputs: schema names are the type names
themselves, the schema registry and the type graph are empty. -/
def envTrivial : DiscoveryEnv where
  primCandidates := []
  apiSchemaCandidates := []
  externalPluginsEnabled := true
  findSchemaInfosInFamily := fun _ => []
  getSchemaTypeName := TfType.getTypeName
  getTypeFromSchemaTypeName := fun _ => TfType.invalid
  getDirectlyDerivedTypes := fun _ => []

/-! Lemmas about the derived-type traversal (`_ProcessDerivedTypes`). -/

theorem derivedLoop_preserve (env : DiscoveryEnv) (A : TfType) :
    ∀ (fuel : Nat) (stack : List TfType) (tm : _TypeMap) (k : String)
      (v : TfType), tmFind? tm k = some v →
      tmFind? (derivedLoop env A fuel stack tm) k = some v := by
  intro fuel
  induction fuel with
  | zero => intro stack tm k v h; simpa [derivedLoop] using h
  | succ n ih =>
    intro stack tm k v h
    cases stack with
    | nil => simpa [derivedLoop] using h
    | cons t rest =>
      simp only [derivedLoop]
      by_cases hname : env.getSchemaTypeName t = ""
      · simp only [if_pos hname]
        exact ih _ _ _ _ h
      · simp only [if_neg hname]
        by_cases hemp : (tmEmplace tm (env.getSchemaTypeName t) A).2 = true
        · simp only [hemp, if_true]
          exact ih _ _ _ _ (tmEmplace_preserve _ _ h)
        · simp only [hemp, if_false]
          exact ih _ _ _ _ (tmEmplace_preserve _ _ h)

theorem derivedLoop_value_cases (env : DiscoveryEnv) (A : TfType) :
    ∀ (fuel : Nat) (stack : List TfType) (tm : _TypeMap) (k : String)
      (v : TfType), tmFind? (derivedLoop env A fuel stack tm) k = some v →
      tmFind? tm k = some v ∨ v = A := by
  intro fuel
  induction fuel with
  | zero =>
    intro stack tm k v h
    exact Or.inl (by simpa [derivedLoop] using h)
  | succ n ih =>
    intro stack tm k v h
    cases stack with
    | nil => exact Or.inl (by simpa [derivedLoop] using h)
    | cons t rest =>
      simp only [derivedLoop] at h
      by_cases hname : env.getSchemaTypeName t = ""
      · rw [if_pos hname] at h
        exact ih _ _ _ _ h
      · rw [if_neg hname] at h
        by_cases hemp : (tmEmplace tm (env.getSchemaTypeName t) A).2 = true
        · rw [if_pos hemp] at h
          rcases ih _ _ _ _ h with h1 | h1
          · rcases tmEmplace_find_cases h1 with h2 | h2
            · exact Or.inl h2
            · exact Or.inr h2.2.2
          · exact Or.inr h1
        · rw [if_neg hemp] at h
          rcases ih _ _ _ _ h with h1 | h1
          · rcases tmEmplace_find_cases h1 with h2 | h2
            · exact Or.inl h2
            · exact Or.inr h2.2.2
          · exact Or.inr h1

theorem processDerivedRoot_preserve (env : DiscoveryEnv) (fuel : Nat)
    {tm : _TypeMap} (r : String) {k : String} {v : TfType}
    (h : tmFind? tm k = some v) :
    tmFind? (processDerivedRoot env fuel tm r) k = some v := by
  unfold processDerivedRoot
  by_cases ht : env.getTypeFromSchemaTypeName r = TfType.invalid
  · simpa [ht] using h
  · simp only [if_neg ht]
    exact derivedLoop_preserve _ _ _ _ _ _ _
      (tmGetOrInsertDefault_preserve _ h)

theorem _ProcessDerivedTypes_preserve (env : DiscoveryEnv) (fuel : Nat)
    (roots : List String) :
    ∀ (tm : _TypeMap) (k : String) (v : TfType), tmFind? tm k = some v →
    tmFind? (_ProcessDerivedTypes env fuel roots tm) k = some v := by
  induction roots with
  | nil => intro tm k v h; simpa [_ProcessDerivedTypes] using h
  | cons r rest ih =>
    intro tm k v h
    exact ih _ _ _ (processDerivedRoot_preserve env fuel r h)

theorem processDerivedRoot_value_cases (env : DiscoveryEnv) (fuel : Nat)
    {tm : _TypeMap} {r : String} {k : String} {v : TfType}
    (h : tmFind? (processDerivedRoot env fuel tm r) k = some v) :
    (∃ k0, tmFind? tm k0 = some v) ∨ v = TfType.invalid := by
  unfold processDerivedRoot at h
  by_cases ht : env.getTypeFromSchemaTypeName r = TfType.invalid
  · rw [if_pos ht] at h
    exact Or.inl ⟨k, h⟩
  · rw [if_neg ht] at h
    rcases derivedLoop_value_cases _ _ _ _ _ _ _ h with h1 | h1
    · rcases tmGetOrInsertDefault_find_cases h1 with h2 | h2
      · exact Or.inl ⟨k, h2⟩
      · exact Or.inr h2.2.2
    · rcases @tmGetOrInsertDefault_value tm r with h2 | h2
      · exact Or.inl ⟨r, by rw [h1]; exact h2⟩
      · exact Or.inr (h1.trans h2)

theorem _ProcessDerivedTypes_value_cases (env : DiscoveryEnv) (fuel : Nat)
    (roots : List String) :
    ∀ (tm : _TypeMap) (k : String) (v : TfType),
    tmFind? (_ProcessDerivedTypes env fuel roots tm) k = some v →
    (∃ k0, tmFind? tm k0 = some v) ∨ v = TfType.invalid := by
  induction roots with
  | nil =>
    intro tm k v h
    exact Or.inl ⟨k, by simpa [_ProcessDerivedTypes] using h⟩
  | cons r rest ih =>
    intro tm k v h
    rcases ih _ _ _ h with ⟨k0, h0⟩ | h0
    · exact processDerivedRoot_value_cases env fuel h0
    · exact Or.inr h0

/-! Lemmas about the schema-family propagation loop. -/

theorem familyVariantStep_typeMap (env : DiscoveryEnv) (incD : Bool)
    (A : TfType) (st : Pass2State) (si : SchemaInfo) :
    (familyVariantStep env incD A st si).typeMap =
      (tmEmplace st.typeMap si.identifier A).1 := by
  unfold familyVariantStep
  by_cases h : (tmEmplace st.typeMap si.identifier A).2 = true <;> simp [h]

theorem familyFold_preserve (env : DiscoveryEnv) (incD : Bool) (A : TfType)
    (infos : List SchemaInfo) :
    ∀ (st : Pass2State) (k : String) (v : TfType),
    tmFind? st.typeMap k = some v →
    tmFind? ((infos.foldl (familyVariantStep env incD A) st)).typeMap k
      = some v := by
  induction infos with
  | nil => intro st k v h; simpa using h
  | cons si rest ih =>
    intro st k v h
    refine ih _ _ _ ?_
    rw [familyVariantStep_typeMap]
    exact tmEmplace_preserve _ _ h

theorem familyStep_preserve (env : DiscoveryEnv) (st : Pass2State)
    (pair : String × Bool) {k : String} {v : TfType}
    (h : tmFind? st.typeMap k = some v) :
    tmFind? (familyStep env st pair).typeMap k = some v := by
  unfold familyStep
  exact familyFold_preserve _ _ _ _ _ _ _
    (tmGetOrInsertDefault_preserve _ h)

/-- C4: schema-family propagation (Pass 2) never overwrites an existing
TypeMap entry: any key already bound when the pass runs keeps its value,
whatever the family pairs are and in whatever order they are processed. -/
theorem C4_family_no_override (env : DiscoveryEnv)
    (pairs : List (String × Bool)) (st : Pass2State) (k : String) (v : TfType)
    (h : tmFind? st.typeMap k = some v) :
    tmFind? (familyPass env pairs st).typeMap k = some v := by
  induction pairs generalizing st with
  | nil => simpa [familyPass] using h
  | cons pair rest ih =>
    exact ih _ (familyStep_preserve env st pair h)

/-- Witness for C4 at a concrete input: a variant with its own explicit
adapter keeps it through family propagation. -/
theorem C4_witness :
    tmFind?
      (familyPass envTrivial [("Cyl", true)]
        { typeMap := [("Cyl_1", TfType.mk "Own")]
          includeDerivedPrimTypes := [] }).typeMap
      "Cyl_1" = some (TfType.mk "Own") :=
  C4_family_no_override envTrivial [("Cyl", true)]
    { typeMap := [("Cyl_1", TfType.mk "Own")], includeDerivedPrimTypes := [] }
    "Cyl_1" (TfType.mk "Own") (by decide)

/-- C3: in Pass 3's stack traversal, a visited subtype whose resolved name
is absent from the map is inserted bound to the ancestor's adapter type and
its direct subtypes are pushed for descent; a subtype whose name is already
present causes no insertion and no descent below it; and every mapping
present before derived-type propagation survives the whole pass unchanged,
so an existing mapping shadows everything below it in the type tree. -/
theorem C3_derived_propagation (env : DiscoveryEnv) (A : TfType) (fuel : Nat)
    (t : TfType) (rest : List TfType) (tm : _TypeMap) :
    (tmFind? tm (env.getSchemaTypeName t) = none →
      env.getSchemaTypeName t ≠ "" →
      derivedLoop env A (fuel + 1) (t :: rest) tm =
        derivedLoop env A fuel
          ((env.getDirectlyDerivedTypes t).reverse ++ rest)
          (tm ++ [(env.getSchemaTypeName t, A)])) ∧
    ((∃ v, tmFind? tm (env.getSchemaTypeName t) = some v) →
      derivedLoop env A (fuel + 1) (t :: rest) tm =
        derivedLoop env A fuel rest tm) ∧
    (∀ (roots : List String) (k : String) (v : TfType),
      tmFind? tm k = some v →
      tmFind? (_ProcessDerivedTypes env fuel roots tm) k = some v) := by
  refine ⟨?_, ?_, ?_⟩
  · intro habs hne
    simp [derivedLoop, tmEmplace, habs, hne]
  · rintro ⟨v, hv⟩
    by_cases hname : env.getSchemaTypeName t = ""
    · simp [derivedLoop, hname]
    · simp [derivedLoop, tmEmplace, hname, hv]
  · intro roots k v h
    exact _ProcessDerivedTypes_preserve env fuel roots tm k v h

/-- Witness for C3 at concrete inputs: one absent-name step, one
present-name step, and preservation of an existing mapping. -/
theorem C3_witness :
    (derivedLoop envTrivial (TfType.mk "P") 1 [TfType.mk "T"] [] =
      derivedLoop envTrivial (TfType.mk "P") 0
        ((envTrivial.getDirectlyDerivedTypes (TfType.mk "T")).reverse ++ [])
        ([] ++ [(envTrivial.getSchemaTypeName (TfType.mk "T"), TfType.mk "P")])) ∧
    (derivedLoop envTrivial (TfType.mk "P") 1 [TfType.mk "T"]
        [("T", TfType.mk "Q")] =
      derivedLoop envTrivial (TfType.mk "P") 0 [] [("T", TfType.mk "Q")]) ∧
    (tmFind? (_ProcessDerivedTypes envTrivial 0 ["R"] [("T", TfType.mk "Q")])
      "T" = some (TfType.mk "Q")) :=
  ⟨(C3_derived_propagation envTrivial (TfType.mk "P") 0 (TfType.mk "T") []
      []).1 (by decide) (by decide),
   (C3_derived_propagation envTrivial (TfType.mk "P") 0 (TfType.mk "T") []
      [("T", TfType.mk "Q")]).2.1 ⟨TfType.mk "Q", by decide⟩,
   (C3_derived_propagation envTrivial (TfType.mk "P") 0 (TfType.mk "T") []
      [("T", TfType.mk "Q")]).2.2 ["R"] "T" (TfType.mk "Q") (by decide)⟩

/-- C5: a present but non-boolean `includeDerivedPrimTypes` value makes the
prim loop report a non-fatal error and abandon only the rest of that
candidate's processing: the derived and family opt-ins are not recorded,
but the step-5 map write has already happened and is not undone, so the
name stays mapped to this candidate's adapter type. -/
theorem C5_malformed_includeDerived (ext : Bool) (st : PrimPass1State)
    (c : Candidate) (metadata : JsObject) (n : String) (w : JsValue)
    (hp : c.plugin = some metadata)
    (he : isEnabledResult ext metadata = some true)
    (hn : jsFind metadata "primTypeName" = some (JsValue.jsString n))
    (hd : jsFind metadata "includeDerivedPrimTypes" = some w)
    (hw : ∀ b, w ≠ JsValue.jsBool b) :
    tmFind? (primPass1Step ext st c).typeMap n = some c.tfType ∧
    (primPass1Step ext st c).includeDerivedPrimTypes
      = st.includeDerivedPrimTypes ∧
    (primPass1Step ext st c).includeSchemaFamilies
      = st.includeSchemaFamilies ∧
    Event.includeDerivedCorrupted c.tfType ∈ (primPass1Step ext st c).events := by
  cases w with
  | jsBool b => exact absurd rfl (hw b)
  | jsString s => simp [primPass1Step, hp, he, hn, hd, tmFind?_tmSet]
  | jsOther => simp [primPass1Step, hp, he, hn, hd, tmFind?_tmSet]

/-- Witness for C5 at a concrete candidate whose
`includeDerivedPrimTypes` metadata holds a string instead of a boolean. -/
theorem C5_witness :
    tmFind?
      (primPass1Step true
        { typeMap := [], includeDerivedPrimTypes := []
          includeSchemaFamilies := [], events := [] }
        { tfType := TfType.mk "P"
          plugin := some [("primTypeName", JsValue.jsString "A"),
            ("includeDerivedPrimTypes", JsValue.jsString "yes")] }).typeMap
      "A" = some (TfType.mk "P") ∧
    Event.includeDerivedCorrupted (TfType.mk "P") ∈
      (primPass1Step true
        { typeMap := [], includeDerivedPrimTypes := []
          includeSchemaFamilies := [], events := [] }
        { tfType := TfType.mk "P"
          plugin := some [("primTypeName", JsValue.jsString "A"),
            ("includeDerivedPrimTypes", JsValue.jsString "yes")] }).events := by
  have h := C5_malformed_includeDerived true
    { typeMap := [], includeDerivedPrimTypes := []
      includeSchemaFamilies := [], events := [] }
    { tfType := TfType.mk "P"
      plugin := some [("primTypeName", JsValue.jsString "A"),
        ("includeDerivedPrimTypes", JsValue.jsString "yes")] }
    [("primTypeName", JsValue.jsString "A"),
     ("includeDerivedPrimTypes", JsValue.jsString "yes")]
    "A" (JsValue.jsString "yes") rfl rfl (by decide) (by decide)
    (by intro b h; cases h)
  exact ⟨h.1, h.2.2.2⟩

/-- C6: the reserved built-in key is special-cased: `HasAdapter` answers
true for it over any registry state (in particular when zero plugins are
registered and the prim TypeMap is empty), and `ConstructAdapter` with
that key bypasses the type map and the adapter factory entirely, always
returning the hard-coded built-in instance and reporting nothing. -/
theorem C6_builtin_key :
    (∀ r : UsdImagingAdapterRegistry,
      UsdImagingAdapterRegistry.HasAdapter r instanceAdapterKey = true) ∧
    (∀ (cenv : ConstructEnv) (r : UsdImagingAdapterRegistry),
      UsdImagingAdapterRegistry.ConstructAdapter cenv r instanceAdapterKey =
        (PrimAdapterResult.instanceAdapter, [])) :=
  ⟨fun r => by simp [UsdImagingAdapterRegistry.HasAdapter],
   fun cenv r => by simp [UsdImagingAdapterRegistry.ConstructAdapter]⟩

/-- C7: construct-by-type reports a coding error and returns empty in
exactly the three failure cases (plugin activation fails, the family's
factory capability is absent, the factory yields nothing) and otherwise
returns the manufactured non-empty instance; the contract is stated for
both adapter-family instantiations at once via the family parameter. -/
theorem C7_construct_by_type (cenv : ConstructEnv) (fam : AdapterFamily)
    (adapterKey : String) (adapterType : TfType) :
    (cenv.pluginLoadOk adapterType = false →
      _ConstructAdapterByType cenv fam adapterKey adapterType =
        (none, [Event.pluginLoadFailed adapterType])) ∧
    (cenv.pluginLoadOk adapterType = true →
      cenv.getFactory fam adapterType = false →
      _ConstructAdapterByType cenv fam adapterKey adapterType =
        (none, [Event.cannotManufacture adapterType adapterKey])) ∧
    (cenv.pluginLoadOk adapterType = true →
      cenv.getFactory fam adapterType = true →
      cenv.factoryNew fam adapterType = false →
      _ConstructAdapterByType cenv fam adapterKey adapterType =
        (none, [Event.failedToInstantiate adapterType adapterKey])) ∧
    (cenv.pluginLoadOk adapterType = true →
      cenv.getFactory fam adapterType = true →
      cenv.factoryNew fam adapterType = true →
      _ConstructAdapterByType cenv fam adapterKey adapterType =
        (some { ofType := adapterType }, [])) := by
  refine ⟨?_, ?_, ?_, ?_⟩ <;> intros <;>
    simp_all [_ConstructAdapterByType]

/-- Witness for C7: the four cases of the contract evaluated at concrete
construction environments. -/
theorem C7_witness :
    (_ConstructAdapterByType
        ⟨fun _ => false, fun _ _ => false, fun _ _ => false⟩
        AdapterFamily.prim "k" (TfType.mk "A") =
      (none, [Event.pluginLoadFailed (TfType.mk "A")])) ∧
    (_ConstructAdapterByType
        ⟨fun _ => true, fun _ _ => false, fun _ _ => false⟩
        AdapterFamily.prim "k" (TfType.mk "A") =
      (none, [Event.cannotManufacture (TfType.mk "A") "k"])) ∧
    (_ConstructAdapterByType
        ⟨fun _ => true, fun _ _ => true, fun _ _ => false⟩
        AdapterFamily.apiSchema "k" (TfType.mk "A") =
      (none, [Event.failedToInstantiate (TfType.mk "A") "k"])) ∧
    (_ConstructAdapterByType
        ⟨fun _ => true, fun _ _ => true, fun _ _ => true⟩
        AdapterFamily.apiSchema "k" (TfType.mk "A") =
      (some { ofType := TfType.mk "A" }, [])) :=
  ⟨(C7_construct_by_type ⟨fun _ => false, fun _ _ => false, fun _ _ => false⟩
      AdapterFamily.prim "k" (TfType.mk "A")).1 rfl,
   (C7_construct_by_type ⟨fun _ => true, fun _ _ => false, fun _ _ => false⟩
      AdapterFamily.prim "k" (TfType.mk "A")).2.1 rfl rfl,
   (C7_construct_by_type ⟨fun _ => true, fun _ _ => true, fun _ _ => false⟩
      AdapterFamily.apiSchema "k" (TfType.mk "A")).2.2.1 rfl rfl rfl,
   (C7_construct_by_type ⟨fun _ => true, fun _ _ => true, fun _ _ => true⟩
      AdapterFamily.apiSchema "k" (TfType.mk "A")).2.2.2 rfl rfl rfl⟩

/-! Shape lemmas about one API-schema discovery step. -/

theorem tmSet_find_cases {tm : _TypeMap} {key k : String} {v w : TfType}
    (h : tmFind? (tmSet tm key w) k = some v) :
    tmFind? tm k = some v ∨ v = w := by
  rw [tmFind?_tmSet] at h
  by_cases hk : key = k
  · rw [if_pos hk] at h
    exact Or.inr (Option.some.inj h).symm
  · rw [if_neg hk] at h
    exact Or.inl h

theorem apiPass1Step_events_shape (ext : Bool) (st : ApiPass1State)
    (c : Candidate) :
    (apiPass1Step ext st c).events = st.events ∨
    (apiPass1Step ext st c).events
      = st.events ++ [Event.isInternalCorrupted c.tfType] ∨
    (apiPass1Step ext st c).events
      = st.events ++ [Event.nameMissing c.tfType] ∨
    (apiPass1Step ext st c).events
      = st.events ++ [Event.nameCorrupted c.tfType] ∨
    (apiPass1Step ext st c).events
      = st.events ++ [Event.includeDerivedCorrupted c.tfType] := by
  unfold apiPass1Step
  repeat' split
  all_goals simp

/-- The discovery environment of the C1 counterexample: two enabled
API-schema adapter plugins that both declare `apiSchemaName = "A"`. -/
def envC1 : DiscoveryEnv where
  primCandidates := []
  apiSchemaCandidates :=
    [{ tfType := TfType.mk "P1"
       plugin := some [("apiSchemaName", JsValue.jsString "A")] },
     { tfType := TfType.mk "P2"
       plugin := some [("apiSchemaName", JsValue.jsString "A")] }]
  externalPluginsEnabled := true
  findSchemaInfosInFamily := fun _ => []
  getSchemaTypeName := TfType.getTypeName
  getTypeFromSchemaTypeName := fun _ => TfType.invalid
  getDirectlyDerivedTypes := fun _ => []

/-- C1 counterexample: with two API-schema adapters declaring the same
name, the registry overwrites (last writer wins) but reports nothing at
all — no conflict naming the discarded and new adapter is emitted for the
API-schema family, contradicting the claim that both families report. -/
theorem C1_counterexample :
    (UsdImagingAdapterRegistry.construct envC1 1).events = [] ∧
    tmFind? (UsdImagingAdapterRegistry.construct envC1 1)._apiSchemaTypeMap
      "A" = some (TfType.mk "P2") := by
  constructor <;> decide

/-- C1 (amended): a candidate whose declared name already exists in the
map being built overwrites the entry (last-writer-wins) in both adapter
families and construction continues with the remaining candidates; but
only the prim-adapter family also emits the non-fatal reported conflict
naming the discarded and the new adapter — the API-schema family
overwrites silently and never emits a conflict for any candidate. -/
theorem C1_overwrite_conflict (ext : Bool) :
    (∀ (st : PrimPass1State) (c : Candidate) (metadata : JsObject)
      (n : String) (old : TfType),
      c.plugin = some metadata →
      isEnabledResult ext metadata = some true →
      jsFind metadata "primTypeName" = some (JsValue.jsString n) →
      tmFind? st.typeMap n = some old →
      tmFind? (primPass1Step ext st c).typeMap n = some c.tfType ∧
      Event.adapterConflict n c.tfType old ∈ (primPass1Step ext st c).events) ∧
    (∀ (st : ApiPass1State) (c : Candidate) (metadata : JsObject)
      (n : String) (old : TfType),
      c.plugin = some metadata →
      isEnabledResult ext metadata = some true →
      jsFind metadata "apiSchemaName" = some (JsValue.jsString n) →
      n ≠ "" →
      tmFind? st.apiSchemaTypeMap n = some old →
      tmFind? (apiPass1Step ext st c).apiSchemaTypeMap n = some c.tfType) ∧
    (∀ (st : ApiPass1State) (c : Candidate) (s : String) (a b : TfType),
      Event.adapterConflict s a b ∈ (apiPass1Step ext st c).events →
      Event.adapterConflict s a b ∈ st.events) ∧
    (∀ (cs : List Candidate) (st : PrimPass1State) (c : Candidate),
      primPass1 ext (c :: cs) st = primPass1 ext cs (primPass1Step ext st c)) ∧
    (∀ (cs : List Candidate) (st : ApiPass1State) (c : Candidate),
      apiPass1 ext (c :: cs) st = apiPass1 ext cs (apiPass1Step ext st c)) := by
  refine ⟨?_, ?_, ?_, fun _ _ _ => rfl, fun _ _ _ => rfl⟩
  · intro st c metadata n old hp he hn hold
    simp only [primPass1Step, primPass1Family, hp, he, hn, hold]
    repeat' split
    all_goals simp_all [tmFind?_tmSet]
  · intro st c metadata n old hp he hn hne hold
    simp only [apiPass1Step, hp, he, hn, if_neg hne]
    repeat' split
    all_goals simp_all [tmFind?_tmSet]
  · intro st c s a b h
    rcases apiPass1Step_events_shape ext st c with hs | hs | hs | hs | hs <;>
      rw [hs] at h <;> simp_all

/-- Witness for C1 (amended) at concrete inputs: a prim candidate hitting
an occupied name overwrites and the conflict event appears; an API-schema
candidate hitting an occupied name overwrites. -/
theorem C1_witness :
    tmFind? ((primPass1Step true
      { typeMap := [("A", TfType.mk "Old")], includeDerivedPrimTypes := []
        includeSchemaFamilies := [], events := [] }
      { tfType := TfType.mk "New"
        plugin := some [("primTypeName", JsValue.jsString "A")] }).typeMap)
      "A" = some (TfType.mk "New") ∧
    Event.adapterConflict "A" (TfType.mk "New") (TfType.mk "Old") ∈
      (primPass1Step true
        { typeMap := [("A", TfType.mk "Old")], includeDerivedPrimTypes := []
          includeSchemaFamilies := [], events := [] }
        { tfType := TfType.mk "New"
          plugin := some [("primTypeName", JsValue.jsString "A")] }).events ∧
    tmFind? ((apiPass1Step true
      { apiSchemaTypeMap := [("B", TfType.mk "Old")]
        keylessApiSchemaAdapterTypes := [], includeDerivedPrimTypes := []
        events := [] }
      { tfType := TfType.mk "New2"
        plugin := some [("apiSchemaName", JsValue.jsString "B")]
        }).apiSchemaTypeMap) "B" = some (TfType.mk "New2") := by
  have h1 := (C1_overwrite_conflict true).1
    { typeMap := [("A", TfType.mk "Old")], includeDerivedPrimTypes := []
      includeSchemaFamilies := [], events := [] }
    { tfType := TfType.mk "New"
      plugin := some [("primTypeName", JsValue.jsString "A")] }
    [("primTypeName", JsValue.jsString "A")] "A" (TfType.mk "Old")
    rfl rfl (by decide) (by decide)
  have h2 := (C1_overwrite_conflict true).2.1
    { apiSchemaTypeMap := [("B", TfType.mk "Old")]
      keylessApiSchemaAdapterTypes := [], includeDerivedPrimTypes := []
      events := [] }
    { tfType := TfType.mk "New2"
      plugin := some [("apiSchemaName", JsValue.jsString "B")] }
    [("apiSchemaName", JsValue.jsString "B")] "B" (TfType.mk "Old")
    rfl rfl (by decide) (by decide) (by decide)
  exact ⟨h1.1, h1.2, h2⟩

/-! Lemmas for the schema-family claims. -/

theorem tmEmplace_find_self (tm : _TypeMap) (key : String) (v : TfType) :
    tmFind? (tmEmplace tm key v).1 key = some ((tmFind? tm key).getD v) := by
  unfold tmEmplace
  cases hf : tmFind? tm key with
  | some w => simpa using hf
  | none =>
    simp only [Option.getD]
    rw [tmFind?_append_none _ hf]
    simp [tmFind?]

theorem familyFold_mem (env : DiscoveryEnv) (incD : Bool) (A : TfType)
    (infos : List SchemaInfo) :
    ∀ (st : Pass2State) (si : SchemaInfo), si ∈ infos →
    ∃ v, tmFind? ((infos.foldl (familyVariantStep env incD A) st)).typeMap
        si.identifier = some v ∧
      (tmFind? st.typeMap si.identifier = some v ∨ v = A) := by
  induction infos with
  | nil => intro st si h; cases h
  | cons si0 rest ih =>
    intro st si h
    rcases List.mem_cons.mp h with rfl | hmem
    · refine ⟨(tmFind? st.typeMap si.identifier).getD A, ?_, ?_⟩
      · simp only [List.foldl_cons]
        refine familyFold_preserve env incD A rest _ _ _ ?_
        rw [familyVariantStep_typeMap]
        exact tmEmplace_find_self _ _ _
      · cases hf : tmFind? st.typeMap si.identifier with
        | some w => exact Or.inl (by simp)
        | none => exact Or.inr (by simp)
    · simp only [List.foldl_cons]
      rcases ih (familyVariantStep env incD A st si0) si hmem with ⟨v, hv, hc⟩
      refine ⟨v, hv, ?_⟩
      rcases hc with hc | hc
      · rw [familyVariantStep_typeMap] at hc
        rcases tmEmplace_find_cases hc with h2 | h2
        · exact Or.inl h2
        · exact Or.inr h2.2.2
      · exact Or.inr hc

theorem isEnabledResult_congr (ext : Bool) {md md' : JsObject}
    (h : jsFind md "isInternal" = jsFind md' "isInternal") :
    isEnabledResult ext md = isEnabledResult ext md' := by
  unfold isEnabledResult
  rw [h]

/-- The discovery environment of the C2 counterexample: one enabled
API-schema adapter declaring `apiSchemaName = "A"` and
`includeSchemaFamily = true`, with schema family "A" holding a second
variant "A_1". -/
def envC2 : DiscoveryEnv where
  primCandidates := []
  apiSchemaCandidates :=
    [{ tfType := TfType.mk "P"
       plugin := some [("apiSchemaName", JsValue.jsString "A"),
         ("includeSchemaFamily", JsValue.jsBool true)] }]
  externalPluginsEnabled := true
  findSchemaInfosInFamily := fun f =>
    if f = "A" then
      [{ identifier := "A", type := TfType.mk "TA" },
       { identifier := "A_1", type := TfType.mk "TA1" }]
    else []
  getSchemaTypeName := TfType.getTypeName
  getTypeFromSchemaTypeName := fun _ => TfType.invalid
  getDirectlyDerivedTypes := fun _ => []

/-- C2 counterexample: an API-schema adapter declaring
`includeSchemaFamily = true` gets its own name mapped, but the other
variant of its schema family is NOT added to the API-schema TypeMap — no
family propagation runs for the API-schema family, contradicting the
claim that the pair is recorded and Pass 2 adds the variants. -/
theorem C2_counterexample :
    tmFind? (UsdImagingAdapterRegistry.construct envC2 1)._apiSchemaTypeMap
      "A" = some (TfType.mk "P") ∧
    tmFind? (UsdImagingAdapterRegistry.construct envC2 1)._apiSchemaTypeMap
      "A_1" = none := by
  constructor <;> decide

/-- C2 (amended): family propagation exists only for the prim-adapter
family: a prim candidate declaring `includeSchemaFamily = true` has its
`(name, includeDerived)` pair recorded, and Pass 2 then maps every
schema-family variant that is not yet mapped to the family
representative's adapter type. The API-schema loop never reads
`includeSchemaFamily`: its step result is unchanged under any change to
that metadata key, and no family propagation runs over the API-schema
TypeMap. -/
theorem C2_family_propagation (ext : Bool) :
    (∀ (st : PrimPass1State) (c : Candidate) (metadata : JsObject)
      (n : String) (d : Bool),
      c.plugin = some metadata →
      isEnabledResult ext metadata = some true →
      jsFind metadata "primTypeName" = some (JsValue.jsString n) →
      jsFind metadata "includeDerivedPrimTypes" = some (JsValue.jsBool d) →
      jsFind metadata "includeSchemaFamily" = some (JsValue.jsBool true) →
      (primPass1Step ext st c).includeSchemaFamilies
        = st.includeSchemaFamilies ++ [(n, d)]) ∧
    (∀ (env : DiscoveryEnv) (st : Pass2State) (f : String) (d : Bool)
      (A : TfType) (si : SchemaInfo),
      tmFind? st.typeMap f = some A →
      si ∈ env.findSchemaInfosInFamily f →
      ∃ v, tmFind? (familyStep env st (f, d)).typeMap si.identifier = some v ∧
        (tmFind? st.typeMap si.identifier = some v ∨ v = A)) ∧
    (∀ (st : ApiPass1State) (c c' : Candidate) (md md' : JsObject),
      c.tfType = c'.tfType →
      c.plugin = some md → c'.plugin = some md' →
      jsFind md "isInternal" = jsFind md' "isInternal" →
      jsFind md "apiSchemaName" = jsFind md' "apiSchemaName" →
      jsFind md "includeDerivedPrimTypes"
        = jsFind md' "includeDerivedPrimTypes" →
      apiPass1Step ext st c = apiPass1Step ext st c') := by
  refine ⟨?_, ?_, ?_⟩
  · intro st c metadata n d hp he hn hd hf
    cases d <;> simp [primPass1Step, primPass1Family, hp, he, hn, hd, hf]
  · intro env st f d A si hrep hmem
    have hq : tmGetOrInsertDefault st.typeMap f = (st.typeMap, A) := by
      simp [tmGetOrInsertDefault, hrep]
    simp only [familyStep, hq]
    exact familyFold_mem env d A (env.findSchemaInfosInFamily f) st si hmem
  · intro st c c' md md' ht hp hp' h1 h2 h3
    simp only [apiPass1Step, hp, hp']
    rw [isEnabledResult_congr ext h1, h2, h3, ht]

/-- Witness for C2 (amended) at concrete inputs: a prim candidate records
its family pair; family propagation maps the unmapped variant "A_1" of
family "A"; and the API-schema step is identical with and without an
`includeSchemaFamily` entry. -/
theorem C2_witness :
    ((primPass1Step true
      { typeMap := [], includeDerivedPrimTypes := []
        includeSchemaFamilies := [], events := [] }
      { tfType := TfType.mk "P"
        plugin := some [("primTypeName", JsValue.jsString "F"),
          ("includeDerivedPrimTypes", JsValue.jsBool true),
          ("includeSchemaFamily", JsValue.jsBool true)] }).includeSchemaFamilies
      = [] ++ [("F", true)]) ∧
    (∃ v, tmFind? (familyStep envC2
        { typeMap := [("A", TfType.mk "P")], includeDerivedPrimTypes := [] }
        ("A", false)).typeMap "A_1" = some v ∧
      (tmFind? [("A", TfType.mk "P")] "A_1" = some v ∨ v = TfType.mk "P")) ∧
    (apiPass1Step true
      { apiSchemaTypeMap := [], keylessApiSchemaAdapterTypes := []
        includeDerivedPrimTypes := [], events := [] }
      { tfType := TfType.mk "Q"
        plugin := some [("apiSchemaName", JsValue.jsString "X"),
          ("includeSchemaFamily", JsValue.jsBool true)] } =
     apiPass1Step true
      { apiSchemaTypeMap := [], keylessApiSchemaAdapterTypes := []
        includeDerivedPrimTypes := [], events := [] }
      { tfType := TfType.mk "Q"
        plugin := some [("apiSchemaName", JsValue.jsString "X")] }) :=
  ⟨(C2_family_propagation true).1
      { typeMap := [], includeDerivedPrimTypes := []
        includeSchemaFamilies := [], events := [] }
      { tfType := TfType.mk "P"
        plugin := some [("primTypeName", JsValue.jsString "F"),
          ("includeDerivedPrimTypes", JsValue.jsBool true),
          ("includeSchemaFamily", JsValue.jsBool true)] }
      [("primTypeName", JsValue.jsString "F"),
       ("includeDerivedPrimTypes", JsValue.jsBool true),
       ("includeSchemaFamily", JsValue.jsBool true)]
      "F" true rfl rfl (by decide) (by decide) (by decide),
   (C2_family_propagation true).2.1 envC2
      { typeMap := [("A", TfType.mk "P")], includeDerivedPrimTypes := [] }
      "A" false (TfType.mk "P")
      { identifier := "A_1", type := TfType.mk "TA1" }
      (by decide) (by decide),
   (C2_family_propagation true).2.2
      { apiSchemaTypeMap := [], keylessApiSchemaAdapterTypes := []
        includeDerivedPrimTypes := [], events := [] }
      { tfType := TfType.mk "Q"
        plugin := some [("apiSchemaName", JsValue.jsString "X"),
          ("includeSchemaFamily", JsValue.jsBool true)] }
      { tfType := TfType.mk "Q"
        plugin := some [("apiSchemaName", JsValue.jsString "X")] }
      [("apiSchemaName", JsValue.jsString "X"),
       ("includeSchemaFamily", JsValue.jsBool true)]
      [("apiSchemaName", JsValue.jsString "X")]
      rfl rfl rfl (by decide) (by decide) (by decide)⟩

/-- The discovery environment of the C9 instance: one prim adapter for
"A" with family and derived opt-in; family "A" has a variant whose map
key "A_1" differs from its canonical schema type name "A_1canon"; that
variant's type has a subtype named "B" with no adapter. -/
def envC9 : DiscoveryEnv where
  primCandidates :=
    [{ tfType := TfType.mk "P"
       plugin := some [("primTypeName", JsValue.jsString "A"),
         ("includeDerivedPrimTypes", JsValue.jsBool true),
         ("includeSchemaFamily", JsValue.jsBool true)] }]
  apiSchemaCandidates := []
  externalPluginsEnabled := true
  findSchemaInfosInFamily := fun f =>
    if f = "A" then
      [{ identifier := "A", type := TfType.mk "TA" },
       { identifier := "A_1", type := TfType.mk "TA1" }]
    else []
  getSchemaTypeName := fun t =>
    if t = TfType.mk "TA" then "A"
    else if t = TfType.mk "TA1" then "A_1canon"
    else if t = TfType.mk "TB" then "B"
    else ""
  getTypeFromSchemaTypeName := fun n =>
    if n = "A" then TfType.mk "TA"
    else if n = "A_1canon" then TfType.mk "TA1"
    else TfType.invalid
  getDirectlyDerivedTypes := fun t =>
    if t = TfType.mk "TA1" then [TfType.mk "TB"] else []

/-- C9: the Pass 3 root lookup is a defaulting map access — a root name
absent from the map is itself inserted mapped to the invalid adapter
type, every not-yet-mapped subtype reached from such a root also gets the
invalid adapter type, and concretely a full registry construction can end
with TypeMap values (here for "A_1canon" and "B") that are the invalid
adapter type, which is not the AdapterType of any discovered candidate. -/
theorem C9_default_lookup :
    (∀ (env : DiscoveryEnv) (fuel : Nat) (tm : _TypeMap) (r : String),
      tmFind? tm r = none →
      env.getTypeFromSchemaTypeName r ≠ TfType.invalid →
      tmFind? (processDerivedRoot env fuel tm r) r = some TfType.invalid) ∧
    (∀ (env : DiscoveryEnv) (fuel : Nat) (tm : _TypeMap) (r k : String)
      (v : TfType),
      tmFind? tm r = none →
      tmFind? tm k = none →
      tmFind? (processDerivedRoot env fuel tm r) k = some v →
      v = TfType.invalid) ∧
    (tmFind? (UsdImagingAdapterRegistry.construct envC9 4)._typeMap "A_1canon"
        = some TfType.invalid ∧
      tmFind? (UsdImagingAdapterRegistry.construct envC9 4)._typeMap "B"
        = some TfType.invalid ∧
      TfType.invalid ∉
        (envC9.primCandidates ++ envC9.apiSchemaCandidates).map
          Candidate.tfType) := by
  refine ⟨?_, ?_, by refine ⟨by decide, by decide, by decide⟩⟩
  · intro env fuel tm r hr ht
    unfold processDerivedRoot
    rw [if_neg ht]
    have hq : tmGetOrInsertDefault tm r
        = (tm ++ [(r, TfType.invalid)], TfType.invalid) := by
      simp [tmGetOrInsertDefault, hr]
    rw [hq]
    refine derivedLoop_preserve _ _ _ _ _ _ _ ?_
    rw [tmFind?_append_none _ hr]
    simp [tmFind?]
  · intro env fuel tm r k v hr hk h
    unfold processDerivedRoot at h
    by_cases ht : env.getTypeFromSchemaTypeName r = TfType.invalid
    · rw [if_pos ht] at h
      rw [hk] at h
      cases h
    · rw [if_neg ht] at h
      have hq : tmGetOrInsertDefault tm r
          = (tm ++ [(r, TfType.invalid)], TfType.invalid) := by
        simp [tmGetOrInsertDefault, hr]
      rw [hq] at h
      rcases derivedLoop_value_cases _ _ _ _ _ _ _ h with h1 | h1
      · rw [tmFind?_append_none _ hk] at h1
        simp only [tmFind?] at h1
        by_cases h2 : r = k
        · rw [if_pos h2] at h1
          exact (Option.some.inj h1).symm
        · rw [if_neg h2] at h1
          cases h1
      · exact h1

/-- Witness for C9's general parts at concrete inputs: the absent root
"A" is default-inserted as invalid, and the subtype "B" reached from the
absent root "A_1canon" comes out mapped to the invalid adapter type. -/
theorem C9_witness :
    tmFind? (processDerivedRoot envC9 1 [] "A") "A" = some TfType.invalid ∧
    TfType.invalid = TfType.invalid :=
  ⟨C9_default_lookup.1 envC9 1 [] "A" rfl (by decide),
   C9_default_lookup.2.1 envC9 2 [] "A_1canon" "B" TfType.invalid rfl rfl
     (by decide)⟩

/-- Keys of the map contain every key with a binding. -/
theorem tmFind?_mem_keys {tm : _TypeMap} {k : String} {v : TfType}
    (h : tmFind? tm k = some v) : k ∈ tm.map Prod.fst := by
  induction tm with
  | nil => simp [tmFind?] at h
  | cons p rest ih =>
    obtain ⟨k', v'⟩ := p
    simp only [tmFind?] at h
    by_cases h2 : k' = k
    · simp [h2]
    · simp only [if_neg h2] at h
      simp [ih h]

/-- The discovery environment of the C10 instance: one enabled prim
adapter plugin whose `primTypeName` is present and the empty string. -/
def envC10 : DiscoveryEnv where
  primCandidates :=
    [{ tfType := TfType.mk "P"
       plugin := some [("primTypeName", JsValue.jsString "")] }]
  apiSchemaCandidates := []
  externalPluginsEnabled := true
  findSchemaInfosInFamily := fun _ => []
  getSchemaTypeName := TfType.getTypeName
  getTypeFromSchemaTypeName := fun _ => TfType.invalid
  getDirectlyDerivedTypes := fun _ => []

/-- C10: for prim adapters an empty `primTypeName` string is not special:
the candidate is neither reported as an error nor routed to a keyless
list — it is written into the prim TypeMap under the empty name, which
then shows up in `GetAdapterKeys()`; for the API-schema family the same
empty name instead routes the candidate into the KeylessAdapterList
without touching the map. -/
theorem C10_empty_prim_name (ext : Bool) :
    (∀ (st : PrimPass1State) (c : Candidate) (metadata : JsObject),
      c.plugin = some metadata →
      isEnabledResult ext metadata = some true →
      jsFind metadata "primTypeName" = some (JsValue.jsString "") →
      tmFind? st.typeMap "" = none →
      jsFind metadata "includeDerivedPrimTypes" = none →
      jsFind metadata "includeSchemaFamily" = none →
      primPass1Step ext st c =
        { typeMap := tmSet st.typeMap "" c.tfType
          includeDerivedPrimTypes := st.includeDerivedPrimTypes
          includeSchemaFamilies := st.includeSchemaFamilies
          events := st.events }) ∧
    (∀ (st : ApiPass1State) (c : Candidate) (metadata : JsObject),
      c.plugin = some metadata →
      isEnabledResult ext metadata = some true →
      jsFind metadata "apiSchemaName" = some (JsValue.jsString "") →
      apiPass1Step ext st c =
        { st with keylessApiSchemaAdapterTypes :=
            st.keylessApiSchemaAdapterTypes ++ [c.tfType] }) ∧
    (∀ (env : DiscoveryEnv) (fuel : Nat) (k : String) (v : TfType),
      tmFind? (UsdImagingAdapterRegistry.construct env fuel)._typeMap k
        = some v →
      k ∈ (UsdImagingAdapterRegistry.construct env fuel).GetAdapterKeys) ∧
    ((UsdImagingAdapterRegistry.construct envC10 1).GetAdapterKeys = [""] ∧
      (UsdImagingAdapterRegistry.construct envC10 1).events = [] ∧
      (UsdImagingAdapterRegistry.construct envC10
        1)._keylessApiSchemaAdapterTypes = []) := by
  refine ⟨?_, ?_, ?_, by refine ⟨by decide, by decide, by decide⟩⟩
  · intro st c metadata hp he hn hnc hd hf
    simp [primPass1Step, primPass1Family, hp, he, hn, hnc, hd, hf]
  · intro st c metadata hp he hn
    simp [apiPass1Step, hp, he, hn]
  · intro env fuel k v h
    have hkeys : (UsdImagingAdapterRegistry.construct env fuel).GetAdapterKeys
        = (UsdImagingAdapterRegistry.construct env fuel)._typeMap.map
          Prod.fst := rfl
    rw [hkeys]
    exact tmFind?_mem_keys h

/-- Witness for C10's general parts at concrete inputs. -/
theorem C10_witness :
    (primPass1Step true
      { typeMap := [], includeDerivedPrimTypes := []
        includeSchemaFamilies := [], events := [] }
      { tfType := TfType.mk "P"
        plugin := some [("primTypeName", JsValue.jsString "")] } =
      { typeMap := tmSet [] "" (TfType.mk "P")
        includeDerivedPrimTypes := []
        includeSchemaFamilies := []
        events := [] }) ∧
    (apiPass1Step true
      { apiSchemaTypeMap := [], keylessApiSchemaAdapterTypes := []
        includeDerivedPrimTypes := [], events := [] }
      { tfType := TfType.mk "Q"
        plugin := some [("apiSchemaName", JsValue.jsString "")] } =
      { apiSchemaTypeMap := []
        keylessApiSchemaAdapterTypes := [] ++ [TfType.mk "Q"]
        includeDerivedPrimTypes := [], events := [] }) ∧
    "" ∈ (UsdImagingAdapterRegistry.construct envC10 1).GetAdapterKeys :=
  ⟨(C10_empty_prim_name true).1
      { typeMap := [], includeDerivedPrimTypes := []
        includeSchemaFamilies := [], events := [] }
      { tfType := TfType.mk "P"
        plugin := some [("primTypeName", JsValue.jsString "")] }
      [("primTypeName", JsValue.jsString "")]
      rfl rfl (by decide) rfl (by decide) (by decide),
   (C10_empty_prim_name true).2.1
      { apiSchemaTypeMap := [], keylessApiSchemaAdapterTypes := []
        includeDerivedPrimTypes := [], events := [] }
      { tfType := TfType.mk "Q"
        plugin := some [("apiSchemaName", JsValue.jsString "")] }
      [("apiSchemaName", JsValue.jsString "")]
      rfl rfl (by decide),
   (C10_empty_prim_name true).2.2.1 envC10 1 "" (TfType.mk "P") (by decide)⟩

/-! Lemmas for the keyless-adapter claim. -/

theorem apiPass1Step_keyless (ext : Bool) (st : ApiPass1State) (c : Candidate)
    (metadata : JsObject) (hp : c.plugin = some metadata)
    (he : isEnabledResult ext metadata = some true)
    (hn : jsFind metadata "apiSchemaName" = some (JsValue.jsString "")) :
    apiPass1Step ext st c =
      { st with keylessApiSchemaAdapterTypes :=
          st.keylessApiSchemaAdapterTypes ++ [c.tfType] } := by
  simp [apiPass1Step, hp, he, hn]

theorem apiPass1Step_keyless_mono (ext : Bool) (st : ApiPass1State)
    (c2 : Candidate) {t : TfType}
    (h : t ∈ st.keylessApiSchemaAdapterTypes) :
    t ∈ (apiPass1Step ext st c2).keylessApiSchemaAdapterTypes := by
  unfold apiPass1Step
  repeat' split
  all_goals simp_all

theorem apiPass1_keyless_mono (ext : Bool) (cs : List Candidate) :
    ∀ (st : ApiPass1State) (t : TfType),
    t ∈ st.keylessApiSchemaAdapterTypes →
    t ∈ (apiPass1 ext cs st).keylessApiSchemaAdapterTypes := by
  induction cs with
  | nil => intro st t h; exact h
  | cons c2 rest ih =>
    intro st t h
    exact ih _ _ (apiPass1Step_keyless_mono ext st c2 h)

theorem apiPass1_keyless_mem (ext : Bool) (cs : List Candidate) :
    ∀ (st : ApiPass1State) (c : Candidate) (metadata : JsObject), c ∈ cs →
    c.plugin = some metadata →
    isEnabledResult ext metadata = some true →
    jsFind metadata "apiSchemaName" = some (JsValue.jsString "") →
    c.tfType ∈ (apiPass1 ext cs st).keylessApiSchemaAdapterTypes := by
  induction cs with
  | nil => intro st c metadata h; cases h
  | cons c2 rest ih =>
    intro st c metadata hmem hp he hn
    rcases List.mem_cons.mp hmem with rfl | hmem2
    · refine apiPass1_keyless_mono ext rest _ _ ?_
      rw [apiPass1Step_keyless ext st c metadata hp he hn]
      simp
    · exact ih (apiPass1Step ext st c2) c metadata hmem2 hp he hn

theorem apiPass1Step_map_value (ext : Bool) (st : ApiPass1State)
    (c2 : Candidate) {k : String} {v : TfType}
    (h : tmFind? (apiPass1Step ext st c2).apiSchemaTypeMap k = some v) :
    tmFind? st.apiSchemaTypeMap k = some v ∨ v = c2.tfType := by
  unfold apiPass1Step at h
  repeat' split at h
  all_goals first
    | exact Or.inl h
    | exact tmSet_find_cases h

theorem apiPass1_map_value (ext : Bool) (T : TfType) (cs : List Candidate) :
    ∀ (st : ApiPass1State),
    (∀ k v, tmFind? st.apiSchemaTypeMap k = some v → v ≠ T) →
    (∀ c2 ∈ cs, c2.tfType = T → ∀ st2 : ApiPass1State,
      (apiPass1Step ext st2 c2).apiSchemaTypeMap = st2.apiSchemaTypeMap) →
    ∀ k v, tmFind? (apiPass1 ext cs st).apiSchemaTypeMap k = some v →
    v ≠ T := by
  induction cs with
  | nil => intro st hst _ k v h; exact hst k v h
  | cons c2 rest ih =>
    intro st hst hcs k v h
    refine ih (apiPass1Step ext st c2) ?_
      (fun c3 h3 => hcs c3 (List.mem_cons_of_mem _ h3)) k v h
    intro k2 v2 h2
    by_cases hT : c2.tfType = T
    · rw [hcs c2 (List.mem_cons_self _ _) hT st] at h2
      exact hst k2 v2 h2
    · rcases apiPass1Step_map_value ext st c2 h2 with h3 | h3
      · exact hst k2 v2 h3
      · exact h3 ▸ hT

theorem constructKeylessLoop_eq (cenv : ConstructEnv) (ts : List TfType) :
    constructKeylessLoop cenv ts =
      (ts.filterMap (fun t =>
        (_ConstructAdapterByType cenv AdapterFamily.apiSchema "" t).1),
       (ts.map (fun t =>
        (_ConstructAdapterByType cenv AdapterFamily.apiSchema "" t).2)).flatten) := by
  induction ts with
  | nil => simp [constructKeylessLoop]
  | cons t rest ih =>
    simp only [constructKeylessLoop, ih, List.filterMap_cons, List.map_cons,
      List.flatten]
    cases h : (_ConstructAdapterByType cenv AdapterFamily.apiSchema "" t).1 <;>
      simp [h]

/-- The API-schema pass of the constructor, spelled as it occurs inside
`UsdImagingAdapterRegistry.construct`. -/
def constructApiPassState (env : DiscoveryEnv) : ApiPass1State :=
  apiPass1 env.externalPluginsEnabled env.apiSchemaCandidates
    { apiSchemaTypeMap := []
      keylessApiSchemaAdapterTypes := []
      includeDerivedPrimTypes := []
      events := (primPass1 env.externalPluginsEnabled env.primCandidates
        { typeMap := [], includeDerivedPrimTypes := []
          includeSchemaFamilies := [], events := [] }).events }

theorem construct_keyless_eq (env : DiscoveryEnv) (fuel : Nat) :
    (UsdImagingAdapterRegistry.construct env fuel)._keylessApiSchemaAdapterTypes
      = (constructApiPassState env).keylessApiSchemaAdapterTypes := rfl

theorem construct_apiMap_eq (env : DiscoveryEnv) (fuel : Nat) :
    (UsdImagingAdapterRegistry.construct env fuel)._apiSchemaTypeMap
      = _ProcessDerivedTypes env fuel
        (constructApiPassState env).includeDerivedPrimTypes
        (constructApiPassState env).apiSchemaTypeMap := rfl

/-- C8: an enabled API-schema adapter declaring the empty name is routed
into the KeylessAdapterList and never into the API-schema TypeMap, so its
adapter type never appears as the value behind any key of the API-schema
table; and constructing the keyless adapters attempts one construction
per KeylessAdapterList entry, returning exactly the successes (in order)
with only the construction-level diagnostics, re-reporting nothing. -/
theorem C8_keyless (env : DiscoveryEnv) (fuel : Nat) (c : Candidate)
    (metadata : JsObject)
    (hc : c ∈ env.apiSchemaCandidates)
    (hp : c.plugin = some metadata)
    (he : isEnabledResult env.externalPluginsEnabled metadata = some true)
    (hn : jsFind metadata "apiSchemaName" = some (JsValue.jsString ""))
    (hv : c.tfType ≠ TfType.invalid)
    (hdist : ∀ c2 ∈ env.apiSchemaCandidates, c2.tfType = c.tfType → c2 = c) :
    c.tfType ∈ (UsdImagingAdapterRegistry.construct env
      fuel)._keylessApiSchemaAdapterTypes ∧
    (∀ k v, tmFind? (UsdImagingAdapterRegistry.construct env
        fuel)._apiSchemaTypeMap k = some v → v ≠ c.tfType) ∧
    (∀ (cenv : ConstructEnv) (r : UsdImagingAdapterRegistry),
      UsdImagingAdapterRegistry.ConstructKeylessAPISchemaAdapters cenv r =
        (r._keylessApiSchemaAdapterTypes.filterMap (fun t =>
          (_ConstructAdapterByType cenv AdapterFamily.apiSchema "" t).1),
         (r._keylessApiSchemaAdapterTypes.map (fun t =>
          (_ConstructAdapterByType cenv AdapterFamily.apiSchema ""
            t).2)).flatten)) := by
  refine ⟨?_, ?_, ?_⟩
  · rw [construct_keyless_eq]
    exact apiPass1_keyless_mem env.externalPluginsEnabled
      env.apiSchemaCandidates _ c metadata hc hp he hn
  · intro k v h
    rw [construct_apiMap_eq] at h
    rcases _ProcessDerivedTypes_value_cases env fuel
        (constructApiPassState env).includeDerivedPrimTypes _ _ _ h with
      ⟨k0, h0⟩ | h0
    · refine apiPass1_map_value env.externalPluginsEnabled c.tfType
        env.apiSchemaCandidates _ ?_ ?_ k0 v h0
      · intro k1 v1 h1
        simp [tmFind?] at h1
      · intro c2 hc2 hT st2
        have hcc : c2 = c := hdist c2 hc2 hT
        subst hcc
        rw [apiPass1Step_keyless env.externalPluginsEnabled st2 c2 metadata
          hp he hn]
    · rw [h0]
      exact fun hh => hv hh.symm
  · intro cenv r
    exact constructKeylessLoop_eq cenv r._keylessApiSchemaAdapterTypes

/-- The discovery environment of the C8 witness: one keyless API-schema
adapter and one named one. -/
def envC8 : DiscoveryEnv where
  primCandidates := []
  apiSchemaCandidates :=
    [{ tfType := TfType.mk "K"
       plugin := some [("apiSchemaName", JsValue.jsString "")] },
     { tfType := TfType.mk "N"
       plugin := some [("apiSchemaName", JsValue.jsString "B")] }]
  externalPluginsEnabled := true
  findSchemaInfosInFamily := fun _ => []
  getSchemaTypeName := TfType.getTypeName
  getTypeFromSchemaTypeName := fun _ => TfType.invalid
  getDirectlyDerivedTypes := fun _ => []

/-- Witness for C8 at a concrete input: the keyless adapter type lands in
the KeylessAdapterList, is absent from behind the key "B", and one
keyless construction succeeds. -/
theorem C8_witness :
    TfType.mk "K" ∈ (UsdImagingAdapterRegistry.construct envC8
      1)._keylessApiSchemaAdapterTypes ∧
    (tmFind? (UsdImagingAdapterRegistry.construct envC8 1)._apiSchemaTypeMap
        "B" = some (TfType.mk "N") →
      TfType.mk "N" ≠ TfType.mk "K") ∧
    UsdImagingAdapterRegistry.ConstructKeylessAPISchemaAdapters
      ⟨fun _ => true, fun _ _ => true, fun _ _ => true⟩
      (UsdImagingAdapterRegistry.construct envC8 1) =
      (((UsdImagingAdapterRegistry.construct envC8
          1)._keylessApiSchemaAdapterTypes).filterMap (fun t =>
        (_ConstructAdapterByType ⟨fun _ => true, fun _ _ => true,
          fun _ _ => true⟩ AdapterFamily.apiSchema "" t).1),
       (((UsdImagingAdapterRegistry.construct envC8
          1)._keylessApiSchemaAdapterTypes).map (fun t =>
        (_ConstructAdapterByType ⟨fun _ => true, fun _ _ => true,
          fun _ _ => true⟩ AdapterFamily.apiSchema "" t).2)).flatten) := by
  have h := C8_keyless envC8 1
    { tfType := TfType.mk "K"
      plugin := some [("apiSchemaName", JsValue.jsString "")] }
    [("apiSchemaName", JsValue.jsString "")]
    (by decide) rfl rfl (by decide) (by decide) (by decide)
  exact ⟨h.1, fun h1 => h.2.1 "B" (TfType.mk "N") h1,
    h.2.2 ⟨fun _ => true, fun _ _ => true, fun _ _ => true⟩
      (UsdImagingAdapterRegistry.construct envC8 1)⟩

end UsdImaging
